import Mathlib

/-!
# Verification of the lighthouse-ci run trigger (`src/runlighthouse.js`)

Shallow embedding of the configuration-resolution and dispatch logic of
`runlighthouse.js`.  Process command-line arguments are modelled by the record
produced by the `minimist` option parse (an external library: boolean flags
`comment`, `help`, `pr` with defaults `comment = true`, `pr = true`, the
positional list `argv._`, and the raw `score` and `runner` values), and the
process environment by a partial map from variable names to string values
(`none` = the variable is unset / `undefined`).  JavaScript numbers that
matter here (`Number(argv.score)`, `parseInt(...)`) are modelled over `Rat`
and `Int` with an explicit `nan` case; the `Number` / `parseInt` string
conversions are modelled on their plain decimal subset.  Process exit and
`printUsageAndExit` are modelled by `Except UsageError`; the single `fetch`
and its response are modelled by a `FetchResult` supplied by the environment.
-/

deriving instance DecidableEq for Except

/-- The process environment: `env name = some v` when the variable is set to
`v`, `none` when unset (`process.env.name === undefined`). -/
def Env : Type := String → Option String

/-- JavaScript truthiness of an environment-variable value: `undefined` and
the empty string are falsy, every other string is truthy. -/
def envTruthy : Option String → Bool
  | none => false
  | some s => decide (s ≠ "")

/-- JavaScript `a || b` on environment-variable values: `b` when `a` is
falsy, `a` otherwise. -/
def jsOr (a b : Option String) : Option String :=
  if envTruthy a then a else b

/-- JavaScript `a || d` where `d` is a non-empty string literal (used for
`argv.runner || RUNNERS.chrome` and `process.env.CI_HOST || '...'`). -/
def jsOrDefault (a : Option String) (d : String) : String :=
  match a with
  | none => d
  | some s => if s = "" then d else s

/-- A JavaScript number as used for `config.minPassScore`: either `NaN` or an
actual (here: rational) numeric value. -/
inductive JsNumber where
  | nan : JsNumber
  | num (q : Rat) : JsNumber
deriving DecidableEq

/-- JavaScript truthiness of a number: `NaN` and `0` are falsy. -/
def JsNumber.truthy : JsNumber → Bool
  | .nan => false
  | .num q => decide (q ≠ 0)

/-- Digit list to natural number, most significant first. -/
def digitsToNat (cs : List Char) : Nat :=
  cs.foldl (fun n c => 10 * n + (c.toNat - '0'.toNat)) 0

/-- `Number(s)` for a string `s`, on the decimal subset: optional leading and
trailing whitespace, the empty (or all-whitespace) string is `0`, an optional
sign followed by decimal digits with an optional fractional part is parsed as
a rational, anything else is `NaN`. -/
def jsNumberOfString (s : String) : JsNumber :=
  let cs := ((s.toList.dropWhile Char.isWhitespace).reverse.dropWhile
    Char.isWhitespace).reverse
  if cs = [] then .num 0
  else
    let (sign, body) : Rat × List Char :=
      match cs with
      | '-' :: rest => (-1, rest)
      | '+' :: rest => (1, rest)
      | _ => (1, cs)
    let intPart := body.takeWhile Char.isDigit
    let rest := body.dropWhile Char.isDigit
    match rest with
    | [] => if intPart = [] then .nan else .num (sign * digitsToNat intPart)
    | '.' :: frac =>
      if frac.all Char.isDigit ∧ (intPart ≠ [] ∨ frac ≠ []) then
        .num (sign * ((digitsToNat intPart : Rat) +
          (digitsToNat frac : Rat) / (10 ^ frac.length : Rat)))
      else .nan
    | _ => .nan

/-- `Number(argv.score)`: `Number(undefined)` is `NaN`. -/
def jsNumberOf : Option String → JsNumber
  | none => .nan
  | some s => jsNumberOfString s

/-- `parseInt(v, 10)`: skip leading whitespace, optional sign, then the
longest decimal-digit prefix; no digits (or `undefined`) gives `NaN`,
modelled as `none`. -/
def jsParseInt : Option String → Option Int
  | none => none
  | some s =>
    let cs := s.toList.dropWhile Char.isWhitespace
    let (sign, body) : Int × List Char :=
      match cs with
      | '-' :: rest => (-1, rest)
      | '+' :: rest => (1, rest)
      | _ => (1, cs)
    let digits := body.takeWhile Char.isDigit
    if digits = [] then none else some (sign * digitsToNat digits)

/-- The `minimist` result for `runlighthouse.js`'s option spec:
`boolean: ['comment', 'help', 'pr']`, `default: {comment: true, pr: true}`,
`alias: {help: 'h'}`.  `positional` is `argv._`; `score` and `runner` are the
raw flag values (`none` = flag absent, i.e. `undefined`). -/
structure Argv where
  positional : List String
  help : Bool := false
  comment : Bool := true
  pr : Bool := true
  score : Option String := none
  runner : Option String := none
deriving DecidableEq

/-- `pr` object built by `getPrInfo`: `number` is `parseInt` of a
provider-specific variable (`none` = `NaN` or the initial `null`), `sha` the
raw variable value (`none` = `null`/`undefined`). -/
structure PrInfo where
  number : Option Int
  sha : Option String
deriving DecidableEq

/-- `config.repo`: owner and name split out of the repository slug
(`none` = `null`/`undefined`). -/
structure Repo where
  owner : Option String
  name : Option String
deriving DecidableEq

/-- The resolved run configuration, field for field the object built by
`getConfig`. -/
structure Config where
  testUrl : String
  runLighthouse : Bool
  addComment : Bool
  minPassScore : JsNumber
  runner : String
  pr : PrInfo
  repo : Repo
deriving DecidableEq

/-- The ways `getConfig` can call `printUsageAndExit` (print usage text and
exit with code 1). -/
inductive UsageError where
  | help : UsageError
  | noUrl : UsageError
  | noScore : UsageError
  | unknownRunner (r : String) (options : List String) : UsageError
deriving DecidableEq

/-- `getPrInfo()`: start from `{number: null, sha: null}`; when `TRAVIS` is
truthy fill from the Travis variables, then when `CIRCLECI` is truthy
overwrite from the CircleCI variables. -/
def getPrInfo (env : Env) : PrInfo :=
  let pr : PrInfo := { number := none, sha := none }
  let pr :=
    if envTruthy (env "TRAVIS") then
      { number := jsParseInt (env "TRAVIS_PULL_REQUEST"),
        sha := env "TRAVIS_PULL_REQUEST_SHA" }
    else pr
  if envTruthy (env "CIRCLECI") then
    { number := jsParseInt (env "CIRCLE_PR_NUMBER"),
      sha := env "CIRCLE_SHA1" }
  else pr

/-- The repository slug resolution and split of `getConfig`:
`TRAVIS_PULL_REQUEST_SLUG || CIRCLE_PULL_REQUEST || CIRCLE_REPOSITORY_URL`,
then `owner`/`name` from `split('/')` when the slug is truthy, `null`
otherwise. -/
def getRepo (env : Env) : Repo :=
  let repoSlug := jsOr (jsOr (env "TRAVIS_PULL_REQUEST_SLUG")
    (env "CIRCLE_PULL_REQUEST")) (env "CIRCLE_REPOSITORY_URL")
  if envTruthy repoSlug then
    let parts := (repoSlug.getD "").splitOn "/"
    { owner := some (parts.headD ""), name := parts.get? 1 }
  else
    { owner := none, name := none }

/-- The list `Object.keys(RUNNERS)`. -/
def possibleRunners : List String := ["chrome", "wpt"]

/-- `getConfig()`: resolve the command-line flags and environment into a
`Config`, or fail with the usage error that made it call
`printUsageAndExit`. -/
def getConfig (argv : Argv) (env : Env) : Except UsageError Config :=
  if argv.help then .error .help
  else
    let testUrl := argv.positional.headD ""
    if testUrl = "" then .error .noUrl
    else
      let runLighthouse := !argv.pr ||
        (argv.pr && (decide (env "TRAVIS_EVENT_TYPE" = some "pull_request") ||
          envTruthy (env "CIRCLE_PULL_REQUEST")))
      let addComment := argv.comment
      let minPassScore := jsNumberOf argv.score
      if !addComment && !minPassScore.truthy then .error .noScore
      else
        let runner := jsOrDefault argv.runner "chrome"
        if !(possibleRunners.contains runner) then
          .error (.unknownRunner runner possibleRunners)
        else
          .ok { testUrl := testUrl
                runLighthouse := runLighthouse
                addComment := addComment
                minPassScore := minPassScore
                runner := runner
                pr := getPrInfo env
                repo := getRepo env }

/-- A JSON value, as produced by `resp.json()` (i.e. `JSON.parse` of the
response body). -/
inductive Json where
  | null : Json
  | bool (b : Bool) : Json
  | num (q : Rat) : Json
  | str (s : String) : Json
  | arr (xs : List Json) : Json
  | obj (fields : List (String × Json)) : Json

/-- Field lookup in a JSON object's field list. -/
def lookupField : List (String × Json) → String → Option Json
  | [], _ => none
  | (k, v) :: rest, key => if k = key then some v else lookupField rest key

/-- JavaScript property access `v.k` on a parsed JSON value `v`: a
`TypeError` (`.error ()`) when `v` is `null`, the field value or `undefined`
(`none`) when `v` is an object, `undefined` for every other value. -/
def jsProp : Json → String → Except Unit (Option Json)
  | .null, _ => .error ()
  | .obj fields, k => .ok (lookupField fields k)
  | _, _ => .ok none

/-- JSON serialisation of `config.minPassScore`: `JSON.stringify` renders
`NaN` as `null`. -/
def JsNumber.toJson : JsNumber → Json
  | .nan => .null
  | .num q => .num q

/-- JSON serialisation of an optional integer (`pr.number`): `NaN`/`null`
becomes JSON `null`. -/
def optIntToJson : Option Int → Json
  | none => .null
  | some i => .num i

/-- JSON serialisation of an optional string field value (`null`/`undefined`
becomes JSON `null`). -/
def optStrToJson : Option String → Json
  | none => .null
  | some s => .str s

/-- The field list of `JSON.stringify(config)`, in the insertion order of
`getConfig`. -/
def configFields (c : Config) : List (String × Json) :=
  [("testUrl", .str c.testUrl),
   ("runLighthouse", .bool c.runLighthouse),
   ("addComment", .bool c.addComment),
   ("minPassScore", c.minPassScore.toJson),
   ("runner", .str c.runner),
   ("pr", .obj [("number", optIntToJson c.pr.number),
                ("sha", optStrToJson c.pr.sha)]),
   ("repo", .obj [("owner", optStrToJson c.repo.owner),
                  ("name", optStrToJson c.repo.name)])]

/-- The outbound HTTP POST request built by `run(config)`. -/
structure Request where
  endpoint : String
  bodyFields : List (String × Json)
  headers : List (String × Option String)

/-- `CI_HOST`: `process.env.CI_HOST || 'https://lighthouse-ci.appspot.com'`. -/
def ciHost (env : Env) : String :=
  jsOrDefault (env "CI_HOST") "https://lighthouse-ci.appspot.com"

/-- `API_KEY`: `process.env.LIGHTHOUSE_API_KEY || process.env.API_KEY`. -/
def apiKeyOf (env : Env) : Option String :=
  jsOr (env "LIGHTHOUSE_API_KEY") (env "API_KEY")

/-- The request construction of `run(config)`: the `switch` on
`config.runner` selects the endpoint path, the body is
`JSON.stringify(config)` with a leading `format: 'json'` field assigned for
the chrome (and default) case, and the headers carry the API key under
`X-API-KEY`. -/
def mkRequest (c : Config) (env : Env) : Request :=
  let headers := [("Content-Type", some "application/json"),
                  ("X-API-KEY", apiKeyOf env)]
  match c.runner with
  | "wpt" =>
    { endpoint := ciHost env ++ "/run_on_wpt"
      bodyFields := configFields c
      headers := headers }
  | _ =>
    { endpoint := ciHost env ++ "/run_on_chrome"
      bodyFields := ("format", .str "json") :: configFields c
      headers := headers }

/-- Outcome of the single `fetch`, supplied by the outside world: the
transport fails (`.catch` on `fetch`), the body fails to parse as JSON
(`.catch` on `resp.json()`), or a JSON value is obtained. -/
inductive FetchResult where
  | transportError : FetchResult
  | parseError : FetchResult
  | ok (json : Json) : FetchResult

/-- Console output relevant to dispatch. -/
inductive LogEvent where
  | usagePrinted : LogEvent
  | skipped : LogEvent
  | wptStarted (targetUrl : Option Json) : LogEvent
  | chromeScore (score : Option Json) : LogEvent
  | ciFailed : LogEvent

/-- The body of the `.then(json => ...)` handler: on the wpt runner read
`json.data.target_url` (a `TypeError` propagates to `.catch`), otherwise log
`json.score`. -/
def thenBody (runner : String) (json : Json) : Except Unit LogEvent :=
  if runner = "wpt" then
    match jsProp json "data" with
    | .error _ => .error ()
    | .ok none => .error ()
    | .ok (some d) =>
      match jsProp d "target_url" with
      | .error _ => .error ()
      | .ok t => .ok (.wptStarted t)
  else
    match jsProp json "score" with
    | .error _ => .error ()
    | .ok s => .ok (.chromeScore s)

/-- Result of `run(config)`: the request it sent, what it logged, and the
process exit code (1 from the `.catch` handler, 0 when the promise chain
completes and the process ends normally). -/
structure DispatchResult where
  request : Request
  logs : List LogEvent
  exitCode : Nat

/-- `run(config)` given the outcome of its single `fetch`: any transport or
parse failure, and any `TypeError` thrown in the `.then` handler, reaches
`.catch`, which logs the failure and exits 1; otherwise the handler's log is
emitted and the process exits 0. -/
def runDispatch (c : Config) (env : Env) (fres : FetchResult) : DispatchResult :=
  let req := mkRequest c env
  match fres with
  | .transportError => { request := req, logs := [.ciFailed], exitCode := 1 }
  | .parseError => { request := req, logs := [.ciFailed], exitCode := 1 }
  | .ok json =>
    match thenBody c.runner json with
    | .error _ => { request := req, logs := [.ciFailed], exitCode := 1 }
    | .ok ev => { request := req, logs := [ev], exitCode := 0 }

/-- Observable outcome of a whole invocation: how many network calls were
made, the exit code, and the dispatch-relevant logs. -/
structure MainOutcome where
  networkCalls : Nat
  exitCode : Nat
  logs : List LogEvent

/-- The top-level script: resolve the configuration (a usage error prints
guidance and exits 1 before any dispatch); then `run(config)` only when
`config.runLighthouse` is truthy, else log that the run was skipped and end
with exit code 0. -/
def mainRun (argv : Argv) (env : Env) (fres : FetchResult) : MainOutcome :=
  match getConfig argv env with
  | .error _ => { networkCalls := 0, exitCode := 1, logs := [.usagePrinted] }
  | .ok c =>
    if c.runLighthouse then
      let d := runDispatch c env fres
      { networkCalls := 1, exitCode := d.exitCode, logs := d.logs }
    else
      { networkCalls := 0, exitCode := 0, logs := [.skipped] }

/-! ## Sample inputs used by the witness theorems -/

/-- An environment with every variable unset. -/
def envEmpty : Env := fun _ => none

/-- An environment in which both supported CI providers are signalled. -/
def envBothCI : Env := fun k =>
  if k = "TRAVIS" then some "true"
  else if k = "TRAVIS_PULL_REQUEST" then some "12"
  else if k = "TRAVIS_PULL_REQUEST_SHA" then some "travissha"
  else if k = "CIRCLECI" then some "true"
  else if k = "CIRCLE_PR_NUMBER" then some "34"
  else if k = "CIRCLE_SHA1" then some "circlesha"
  else none

/-- A default invocation with only a URL. -/
def argvDefaultEx : Argv := { positional := ["https://example.com"] }

/-- The configuration `getConfig` resolves for `argvDefaultEx` in the empty
environment. -/
def cfgSkipEx : Config :=
  { testUrl := "https://example.com", runLighthouse := false,
    addComment := true, minPassScore := .nan, runner := "chrome",
    pr := { number := none, sha := none },
    repo := { owner := none, name := none } }

/-- A chrome-runner configuration that dispatches. -/
def cfgChromeEx : Config := { cfgSkipEx with runLighthouse := true }

/-- A wpt-runner configuration that dispatches. -/
def cfgWptEx : Config := { cfgChromeEx with runner := "wpt" }

/-! ## Helper lemmas -/

/-- Characterisation of a successful `getConfig`: all three validity checks
passed and the configuration is exactly the record built from the flags and
the environment. -/
theorem getConfig_ok_eq (argv : Argv) (env : Env) (c : Config)
    (hok : getConfig argv env = .ok c) :
    argv.help = false ∧
    argv.positional.headD "" ≠ "" ∧
    (!argv.comment && !(jsNumberOf argv.score).truthy) = false ∧
    possibleRunners.contains (jsOrDefault argv.runner "chrome") = true ∧
    c = { testUrl := argv.positional.headD ""
          runLighthouse := !argv.pr ||
            (argv.pr && (decide (env "TRAVIS_EVENT_TYPE" = some "pull_request") ||
              envTruthy (env "CIRCLE_PULL_REQUEST")))
          addComment := argv.comment
          minPassScore := jsNumberOf argv.score
          runner := jsOrDefault argv.runner "chrome"
          pr := getPrInfo env
          repo := getRepo env } := by
  simp only [getConfig] at hok
  split at hok
  case isTrue h => exact Except.noConfusion hok
  case isFalse h1 =>
    split at hok
    case isTrue h => exact Except.noConfusion hok
    case isFalse h2 =>
      split at hok
      case isTrue h => exact Except.noConfusion hok
      case isFalse h3 =>
        split at hok
        case isTrue h => exact Except.noConfusion hok
        case isFalse h4 =>
          cases hok
          exact ⟨by simpa using h1, h2, by simpa using h3, by simpa using h4, rfl⟩

/-- On a resolution failure the script prints usage and exits 1 with no
network call. -/
theorem mainRun_error (argv : Argv) (env : Env) (e : UsageError)
    (he : getConfig argv env = .error e) (fres : FetchResult) :
    mainRun argv env fres =
      { networkCalls := 0, exitCode := 1, logs := [.usagePrinted] } := by
  simp [mainRun, he]

/-! ## Claims -/

/-- C1: with the `pr` flag true (its default) and no pull-request-indicating
environment variable set (`TRAVIS_EVENT_TYPE` is not `'pull_request'` and
`CIRCLE_PULL_REQUEST` is unset), a successful resolution yields
`runLighthouse = false`, and the script makes zero network calls, logs that
the run was skipped, and exits with code 0. -/
theorem c1_pr_gating_skips_run (argv : Argv) (env : Env) (c : Config)
    (hpr : argv.pr = true)
    (ht : env "TRAVIS_EVENT_TYPE" ≠ some "pull_request")
    (hc : env "CIRCLE_PULL_REQUEST" = none)
    (hok : getConfig argv env = .ok c) :
    c.runLighthouse = false ∧
    ∀ fres, mainRun argv env fres =
      { networkCalls := 0, exitCode := 0, logs := [.skipped] } := by
  obtain ⟨-, -, -, -, hceq⟩ := getConfig_ok_eq argv env c hok
  have hrl : c.runLighthouse = false := by
    subst hceq
    simp [hpr, hc, envTruthy, ht]
  refine ⟨hrl, fun fres => ?_⟩
  simp [mainRun, hok, hrl]

/-- C1 witness: the default invocation in the empty environment. -/
theorem c1_pr_gating_skips_run_witness :
    cfgSkipEx.runLighthouse = false ∧
    mainRun argvDefaultEx envEmpty .transportError =
      { networkCalls := 0, exitCode := 0, logs := [.skipped] } :=
  ⟨(c1_pr_gating_skips_run argvDefaultEx envEmpty cfgSkipEx rfl
      (by decide) rfl (by decide)).1,
   (c1_pr_gating_skips_run argvDefaultEx envEmpty cfgSkipEx rfl
      (by decide) rfl (by decide)).2 .transportError⟩

/-- C2: if the `pr` flag is explicitly false, a successful resolution yields
`runLighthouse = true`, regardless of any environment variable values. -/
theorem c2_pr_false_always_runs (argv : Argv) (env : Env) (c : Config)
    (hpr : argv.pr = false)
    (hok : getConfig argv env = .ok c) :
    c.runLighthouse = true := by
  obtain ⟨-, -, -, -, hceq⟩ := getConfig_ok_eq argv env c hok
  subst hceq
  simp [hpr]

/-- C2 witness: `--pr=false` with both CI providers' variables set. -/
theorem c2_pr_false_always_runs_witness :
    ({ testUrl := "https://example.com", runLighthouse := true,
       addComment := true, minPassScore := .nan, runner := "chrome",
       pr := { number := some 34, sha := some "circlesha" },
       repo := { owner := none, name := none } } : Config).runLighthouse
      = true :=
  c2_pr_false_always_runs { positional := ["https://example.com"], pr := false }
    envBothCI _ rfl (by decide)

/-- C3: if the `comment` flag is false (`--no-comment`) and
`Number(argv.score)` is falsy (flag absent, zero, or not a number),
resolution fails with a usage error, so usage guidance is printed and the
process exits 1 with zero network calls. -/
theorem c3_no_comment_requires_score (argv : Argv) (env : Env)
    (hcm : argv.comment = false)
    (hsc : (jsNumberOf argv.score).truthy = false) :
    (∃ e, getConfig argv env = .error e) ∧
    ∀ fres, mainRun argv env fres =
      { networkCalls := 0, exitCode := 1, logs := [.usagePrinted] } := by
  have herr : ∃ e, getConfig argv env = .error e := by
    cases h : getConfig argv env with
    | error e => exact ⟨e, rfl⟩
    | ok c =>
      obtain ⟨-, -, h3, -, -⟩ := getConfig_ok_eq argv env c h
      rw [hcm, hsc] at h3
      simp at h3
  obtain ⟨e, he⟩ := herr
  exact ⟨⟨e, he⟩, fun fres => mainRun_error argv env e he fres⟩

/-- C3 witness: `--no-comment` with no `--score`. -/
theorem c3_no_comment_requires_score_witness :
    (∃ e, getConfig { positional := ["https://example.com"], comment := false }
      envEmpty = .error e) ∧
    mainRun { positional := ["https://example.com"], comment := false }
      envEmpty .transportError =
      { networkCalls := 0, exitCode := 1, logs := [.usagePrinted] } :=
  ⟨(c3_no_comment_requires_score
      { positional := ["https://example.com"], comment := false }
      envEmpty rfl rfl).1,
   (c3_no_comment_requires_score
      { positional := ["https://example.com"], comment := false }
      envEmpty rfl rfl).2 .transportError⟩

/-- C4: with no positional URL argument and no help flag, resolution fails
with the no-URL usage error regardless of all other flags and environment
variables; no configuration is produced and no network call is made. -/
theorem c4_missing_url_fails (argv : Argv) (env : Env)
    (hpos : argv.positional = [])
    (hh : argv.help = false) :
    getConfig argv env = .error .noUrl ∧
    ∀ fres, mainRun argv env fres =
      { networkCalls := 0, exitCode := 1, logs := [.usagePrinted] } := by
  have he : getConfig argv env = .error .noUrl := by
    simp [getConfig, hpos, hh]
  exact ⟨he, fun fres => mainRun_error argv env .noUrl he fres⟩

/-- C4 witness: an invocation with flags but no URL. -/
theorem c4_missing_url_fails_witness :
    getConfig { positional := [], pr := false, score := some "93" } envBothCI
      = .error .noUrl ∧
    mainRun { positional := [], pr := false, score := some "93" } envBothCI
      .transportError =
      { networkCalls := 0, exitCode := 1, logs := [.usagePrinted] } :=
  ⟨(c4_missing_url_fails { positional := [], pr := false, score := some "93" }
      envBothCI rfl rfl).1,
   (c4_missing_url_fails { positional := [], pr := false, score := some "93" }
      envBothCI rfl rfl).2 .transportError⟩

/-- C5 counterexample: the empty string (`--runner=`) is a runner flag value
outside the two recognised identifiers, yet resolution does not fail:
`argv.runner || RUNNERS.chrome` lets the falsy empty string fall through to
the default, and `getConfig` succeeds with the chrome runner. -/
theorem c5_counterexample :
    "" ∉ possibleRunners ∧
    getConfig { positional := ["https://example.com"], runner := some "" }
      envEmpty = .ok cfgSkipEx ∧
    cfgSkipEx.runner = "chrome" :=
  ⟨by decide, by decide, rfl⟩

/-- C5 (amended): a non-empty runner flag value outside the two recognised
identifiers makes resolution fail with the usage error that lists the valid
options, before any network activity; an absent runner flag, or one set to
the empty string, defaults to `"chrome"`. -/
theorem c5_runner_default_and_rejection (argv : Argv) (env : Env)
    (hh : argv.help = false)
    (hu : argv.positional.headD "" ≠ "")
    (hs : (!argv.comment && !(jsNumberOf argv.score).truthy) = false) :
    (∀ r, argv.runner = some r → r ≠ "" → r ∉ possibleRunners →
      getConfig argv env = .error (.unknownRunner r possibleRunners) ∧
      ∀ fres, mainRun argv env fres =
        { networkCalls := 0, exitCode := 1, logs := [.usagePrinted] }) ∧
    ((argv.runner = none ∨ argv.runner = some "") →
      ∀ c, getConfig argv env = .ok c → c.runner = "chrome") := by
  constructor
  · intro r hr hr0 hrm
    have he : getConfig argv env = .error (.unknownRunner r possibleRunners) := by
      have hjs : jsOrDefault argv.runner "chrome" = r := by
        rw [hr]; simp [jsOrDefault, hr0]
      have hcon : possibleRunners.contains r = false := by
        simpa using hrm
      have hu' : argv.positional.head?.getD "" ≠ "" := by
        simpa [List.headD_eq_head?] using hu
      simp [getConfig, hh, hu', hs, hjs, hcon, hrm]
    exact ⟨he, fun fres => mainRun_error argv env _ he fres⟩
  · intro hr c hok
    obtain ⟨-, -, -, -, hceq⟩ := getConfig_ok_eq argv env c hok
    subst hceq
    rcases hr with hr | hr <;> simp [hr, jsOrDefault]

/-- C5 (amended) witness: `--runner=foo` is rejected with the option list,
and the same invocation with `--runner=` resolves to the chrome runner. -/
theorem c5_runner_default_and_rejection_witness :
    (getConfig { positional := ["https://example.com"], runner := some "foo" }
       envEmpty = .error (.unknownRunner "foo" possibleRunners) ∧
     mainRun { positional := ["https://example.com"], runner := some "foo" }
       envEmpty .transportError =
       { networkCalls := 0, exitCode := 1, logs := [.usagePrinted] }) ∧
    cfgSkipEx.runner = "chrome" :=
  ⟨⟨((c5_runner_default_and_rejection
        { positional := ["https://example.com"], runner := some "foo" }
        envEmpty rfl (by decide) rfl).1 "foo" rfl (by decide) (by decide)).1,
    ((c5_runner_default_and_rejection
        { positional := ["https://example.com"], runner := some "foo" }
        envEmpty rfl (by decide) rfl).1 "foo" rfl (by decide) (by decide)).2
      .transportError⟩,
   (c5_runner_default_and_rejection
       { positional := ["https://example.com"], runner := some "" }
       envEmpty rfl (by decide) rfl).2 (Or.inr rfl) cfgSkipEx (by decide)⟩

/-- C6: on a transport failure or a response body that fails to parse as
JSON, the dispatcher logs the failure and exits 1; when the response handler
completes, or when the run is intentionally skipped, the exit code is 0. -/
theorem c6_failure_exit_codes (c : Config) (env : Env) :
    (runDispatch c env .transportError =
      { request := mkRequest c env, logs := [.ciFailed], exitCode := 1 }) ∧
    (runDispatch c env .parseError =
      { request := mkRequest c env, logs := [.ciFailed], exitCode := 1 }) ∧
    (∀ json ev, thenBody c.runner json = .ok ev →
      runDispatch c env (.ok json) =
        { request := mkRequest c env, logs := [ev], exitCode := 0 }) ∧
    (∀ argv fres, getConfig argv env = .ok c → c.runLighthouse = false →
      mainRun argv env fres =
        { networkCalls := 0, exitCode := 0, logs := [.skipped] }) := by
  refine ⟨rfl, rfl, fun json ev hok => ?_, fun argv fres hok hrl => ?_⟩
  · simp [runDispatch, hok]
  · simp [mainRun, hok, hrl]

/-- C6 witness: a transport failure exits 1, a handled chrome response exits
0, and a skipped run exits 0. -/
theorem c6_failure_exit_codes_witness :
    (runDispatch cfgChromeEx envEmpty .transportError =
      { request := mkRequest cfgChromeEx envEmpty, logs := [.ciFailed],
        exitCode := 1 }) ∧
    (runDispatch cfgChromeEx envEmpty (.ok (.obj [("score", .num 95)])) =
      { request := mkRequest cfgChromeEx envEmpty,
        logs := [.chromeScore (some (.num 95))], exitCode := 0 }) ∧
    (mainRun argvDefaultEx envEmpty .parseError =
      { networkCalls := 0, exitCode := 0, logs := [.skipped] }) :=
  ⟨(c6_failure_exit_codes cfgChromeEx envEmpty).1,
   (c6_failure_exit_codes cfgChromeEx envEmpty).2.2.1
     (.obj [("score", .num 95)]) (.chromeScore (some (.num 95))) rfl,
   (c6_failure_exit_codes cfgSkipEx envEmpty).2.2.2 argvDefaultEx .parseError
     (by decide) rfl⟩

/-- C7: with the chrome runner, a successful response whose JSON object
carries a numeric `score` field makes dispatch report exactly that score and
exit 0, for every score value and every configuration (in particular for any
`minPassScore`): no local score-versus-threshold comparison happens. -/
theorem c7_no_local_threshold_check (c : Config) (env : Env)
    (fields : List (String × Json)) (q : Rat)
    (hrun : c.runner = "chrome")
    (hscore : lookupField fields "score" = some (.num q)) :
    runDispatch c env (.ok (.obj fields)) =
      { request := mkRequest c env, logs := [.chromeScore (some (.num q))],
        exitCode := 0 } := by
  simp [runDispatch, thenBody, hrun, jsProp, hscore]

/-- C7 witness: a returned score of 5 with `minPassScore = 93` still exits 0
and is reported as-is. -/
theorem c7_no_local_threshold_check_witness :
    runDispatch { cfgChromeEx with minPassScore := .num 93 } envEmpty
      (.ok (.obj [("score", .num 5)])) =
      { request := mkRequest { cfgChromeEx with minPassScore := .num 93 }
          envEmpty,
        logs := [.chromeScore (some (.num 5))], exitCode := 0 } :=
  c7_no_local_threshold_check { cfgChromeEx with minPassScore := .num 93 }
    envEmpty [("score", .num 5)] 5 rfl rfl

/-- C8: the endpoint path is selected by runner kind (`/run_on_wpt` for wpt,
`/run_on_chrome` for chrome), the body is the serialised configuration with a
`format: "json"` field added for the chrome runner only, and the API key is
attached in the `X-API-KEY` header in both cases. -/
theorem c8_request_shape (c : Config) (env : Env) :
    (mkRequest c env).headers =
      [("Content-Type", some "application/json"),
       ("X-API-KEY", apiKeyOf env)] ∧
    (c.runner = "wpt" → mkRequest c env =
      { endpoint := ciHost env ++ "/run_on_wpt"
        bodyFields := configFields c
        headers := [("Content-Type", some "application/json"),
                    ("X-API-KEY", apiKeyOf env)] }) ∧
    (c.runner = "chrome" → mkRequest c env =
      { endpoint := ciHost env ++ "/run_on_chrome"
        bodyFields := ("format", .str "json") :: configFields c
        headers := [("Content-Type", some "application/json"),
                    ("X-API-KEY", apiKeyOf env)] }) := by
  refine ⟨?_, fun hrun => ?_, fun hrun => ?_⟩
  · unfold mkRequest
    split <;> rfl
  · simp [mkRequest, hrun]
  · simp [mkRequest, hrun]

/-- C8 witness: the request for a wpt configuration and for a chrome
configuration, with an API key in the environment. -/
theorem c8_request_shape_witness :
    mkRequest cfgWptEx (fun k =>
        if k = "LIGHTHOUSE_API_KEY" then some "secret" else none) =
      { endpoint := "https://lighthouse-ci.appspot.com/run_on_wpt"
        bodyFields := configFields cfgWptEx
        headers := [("Content-Type", some "application/json"),
                    ("X-API-KEY", some "secret")] } ∧
    mkRequest cfgChromeEx (fun k =>
        if k = "LIGHTHOUSE_API_KEY" then some "secret" else none) =
      { endpoint := "https://lighthouse-ci.appspot.com/run_on_chrome"
        bodyFields := ("format", .str "json") :: configFields cfgChromeEx
        headers := [("Content-Type", some "application/json"),
                    ("X-API-KEY", some "secret")] } := by
  constructor
  · have h := (c8_request_shape cfgWptEx (fun k =>
      if k = "LIGHTHOUSE_API_KEY" then some "secret" else none)).2.1 rfl
    rw [h]
    rfl
  · have h := (c8_request_shape cfgChromeEx (fun k =>
      if k = "LIGHTHOUSE_API_KEY" then some "secret" else none)).2.2 rfl
    rw [h]
    rfl

/-- C9: when both supported CI providers' marker variables are truthy, the
pull-request identity is taken from the CircleCI variables: the Travis block
runs first and the CircleCI block overwrites it, so the last matching
provider wins. -/
theorem c9_circle_overwrites_travis (env : Env)
    (ht : envTruthy (env "TRAVIS") = true)
    (hc : envTruthy (env "CIRCLECI") = true) :
    getPrInfo env =
      { number := jsParseInt (env "CIRCLE_PR_NUMBER"),
        sha := env "CIRCLE_SHA1" } := by
  simp [getPrInfo, ht, hc]

/-- C9 witness: with both providers signalled, the CircleCI number and sha
win over the Travis ones. -/
theorem c9_circle_overwrites_travis_witness :
    getPrInfo envBothCI = { number := some 34, sha := some "circlesha" } := by
  have h := c9_circle_overwrites_travis envBothCI (by decide) (by decide)
  rw [h]
  decide

/-- C10 counterexample: the claim "for the chrome runner, every HTTP response
whose body parses as JSON results in exit code 0" is false: the body `null`
parses as the JSON value `null`, but `json.score` then throws a `TypeError`,
which reaches `.catch` and exits 1. -/
theorem c10_counterexample :
    cfgChromeEx.runner = "chrome" ∧
    (runDispatch cfgChromeEx envEmpty (.ok .null)).exitCode = 1 ∧
    (runDispatch cfgChromeEx envEmpty (.ok .null)).logs = [.ciFailed] :=
  ⟨rfl, rfl, rfl⟩

/-- C10 (amended): for the chrome runner, every HTTP response whose body
parses as a JSON value other than `null` results in exit code 0, a missing
`score` field being reported as an undefined value rather than treated as a
malformed response (a `null` body throws and exits 1, per the
counterexample); on the wpt path a response whose parsed value lacks the
`data` field raises and exits 1. -/
theorem c10_missing_fields (c : Config) (env : Env) (j : Json) :
    (c.runner = "chrome" → j ≠ .null →
      ∃ s, jsProp j "score" = .ok s ∧
        runDispatch c env (.ok j) =
          { request := mkRequest c env, logs := [.chromeScore s],
            exitCode := 0 }) ∧
    (c.runner = "wpt" → jsProp j "data" = .ok none →
      runDispatch c env (.ok j) =
        { request := mkRequest c env, logs := [.ciFailed], exitCode := 1 }) := by
  constructor
  · intro hrun hnull
    have hp : ∃ s, jsProp j "score" = .ok s := by
      cases j with
      | null => exact absurd rfl hnull
      | obj fields => exact ⟨lookupField fields "score", rfl⟩
      | bool b => exact ⟨none, rfl⟩
      | num q => exact ⟨none, rfl⟩
      | str s => exact ⟨none, rfl⟩
      | arr xs => exact ⟨none, rfl⟩
    obtain ⟨s, hs⟩ := hp
    exact ⟨s, hs, by simp [runDispatch, thenBody, hrun, hs]⟩
  · intro hrun hdata
    simp [runDispatch, thenBody, hrun, hdata]

/-- C10 (amended) witness: objects without the relevant field on both
paths. -/
theorem c10_missing_fields_witness :
    (∃ s, jsProp (.obj [("other", .num 1)]) "score" = .ok s ∧
      runDispatch cfgChromeEx envEmpty (.ok (.obj [("other", .num 1)])) =
        { request := mkRequest cfgChromeEx envEmpty,
          logs := [.chromeScore s], exitCode := 0 }) ∧
    runDispatch cfgWptEx envEmpty (.ok (.obj [("other", .num 1)])) =
      { request := mkRequest cfgWptEx envEmpty, logs := [.ciFailed],
        exitCode := 1 } :=
  ⟨(c10_missing_fields cfgChromeEx envEmpty (.obj [("other", .num 1)])).1
     rfl (fun h => Json.noConfusion h),
   (c10_missing_fields cfgWptEx envEmpty (.obj [("other", .num 1)])).2
     rfl rfl⟩
